import Mathlib

/-!
Verification of the resilient request client of the chess-club repository,
file `frontend/src/lib/api.js`: the `ApiError` class, `parseResponseOnce`,
`request` (timeout, retry and credential-clearing logic) and
`getErrorMessage`.

JavaScript dynamic values are embedded as `JsVal` (with `undefined` distinct
from `null`, since the code relies on truthiness and on property access
returning `undefined`).  Platform builtins that are not code of this
repository (`fetch`, `JSON.parse`, `localStorage`) are modelled as
parameters or as small explicit functions: the transport is a function
from the attempt number to the outcome of that `fetch`, `JSON.parse` is a
parameter `jsonParse : String → Option JsVal` (`none` models a parse
exception), and `localStorage` is an association list of string keys.
-/

set_option maxHeartbeats 1000000

/-- A JavaScript runtime value (restricted to what JSON bodies and the
client manipulate).  `undefined` models `undefined`, distinct from `null`. -/
inductive JsVal : Type where
  | undefined : JsVal
  | null : JsVal
  | bool : Bool → JsVal
  | num : Int → JsVal
  | str : String → JsVal
  | arr : List JsVal → JsVal
  | obj : List (String × JsVal) → JsVal
deriving Repr

/-- JavaScript truthiness of a value. -/
def truthy : JsVal → Bool
  | .undefined => false
  | .null => false
  | .bool b => b
  | .num n => n != 0
  | .str s => s != ""
  | .arr _ => true
  | .obj _ => true

/-- JavaScript property access `v[k]`: on an object, the value of field
`k` or `undefined`; on any other non-nullish value, `undefined`.  (The
client only ever dereferences a value it has already checked truthy.) -/
def getProp (v : JsVal) (k : String) : JsVal :=
  match v with
  | .obj fields =>
    match fields.find? (fun p => p.fst == k) with
    | some p => p.snd
    | none => .undefined
  | _ => .undefined

/-- JavaScript `a || b`: `a` if truthy, else `b`. -/
def jsOr (a b : JsVal) : JsVal :=
  if truthy a then a else b

/-- True when the value is a string (the only values `.toLowerCase()`
accepts). -/
def JsVal.isStr : JsVal → Bool
  | .str _ => true
  | _ => false

/-- JavaScript `String(v)` (the coercion applied by the `Error`
constructor to its message argument), for the values of `JsVal`. -/
def jsToString : JsVal → String
  | .undefined => "undefined"
  | .null => "null"
  | .bool true => "true"
  | .bool false => "false"
  | .num n => toString n
  | .str s => s
  | .arr xs => jsArrToString xs
  | .obj _ => "[object Object]"
where
  /-- `Array.prototype.toString`: elements joined by commas, nullish
  elements rendered empty. -/
  jsArrToString : List JsVal → String
  | [] => ""
  | [x] => jsElemToString x
  | x :: y :: xs => jsElemToString x ++ "," ++ jsArrToString (y :: xs)
  /-- One array element under `Array.prototype.join`. -/
  jsElemToString : JsVal → String
  | .undefined => ""
  | .null => ""
  | .bool true => "true"
  | .bool false => "false"
  | .num n => toString n
  | .str s => s
  | .arr xs => jsArrToString xs
  | .obj _ => "[object Object]"

/-- JavaScript `String.prototype.toLowerCase`, as the per-character
lowercasing of the string (the messages involved are ASCII). -/
def toLowerJS (s : String) : String := String.mk (s.toList.map Char.toLower)

/-- JavaScript `hay.includes(needle)` on strings, on the character
lists. -/
def listIncludes (needle : List Char) : List Char → Bool
  | [] => needle.isEmpty
  | c :: rest => needle.isPrefixOf (c :: rest) || listIncludes needle rest

/-- JavaScript `hay.includes(needle)` on strings. -/
def strIncludes (hay needle : String) : Bool :=
  listIncludes needle.toList hay.toList

/-- JavaScript `parseInt` restricted to its base-10 path, as applied to a
`Retry-After` header: skip leading whitespace, optional sign, then the
leading run of decimal digits; `none` models `NaN` (also the result of
`parseInt(null)` for an absent header). -/
def parseIntJS (s : String) : Option Int :=
  let cs := s.toList.dropWhile (fun c => c == ' ' || c == '\t' || c == '\n' || c == '\r')
  let signAndRest : Int × List Char :=
    match cs with
    | '-' :: rest => (-1, rest)
    | '+' :: rest => (1, rest)
    | rest => (1, rest)
  let digits := signAndRest.snd.takeWhile (fun c => c.isDigit)
  if digits.isEmpty then none
  else some (signAndRest.fst * ((digits.foldl (fun acc c => acc * 10 + (c.toNat - 48)) 0 : Nat) : Int))

/-- The client-side credential store (`localStorage`), as an association
list from keys to stored strings. -/
def Store : Type := List (String × String)

/-- `localStorage.getItem`. -/
def getItem (s : Store) (k : String) : Option String :=
  (List.find? (fun p => p.fst == k) s).map (fun p => p.snd)

/-- `localStorage.removeItem`. -/
def removeItem (s : Store) (k : String) : Store :=
  List.filter (fun p => p.fst != k) s

/-- `MAX_RETRIES` from api.js line 7. -/
def MAX_RETRIES : Nat := 3

/-- `RETRY_DELAY` from api.js line 8 (milliseconds). -/
def RETRY_DELAY : Int := 1000

/-- The `ApiError` class: message, status, payload and the five derived
boolean flags computed by the constructor (api.js lines 11-23).  `status`
is `Option Int` so that `undefined` (`none`) stays representable, as the
constructor tests `status === undefined`. -/
structure ApiError : Type where
  message : String
  status : Option Int
  payload : Option JsVal
  isNetworkError : Bool
  isRateLimited : Bool
  isAuthError : Bool
  isNotFound : Bool
  isServerError : Bool
deriving Repr

/-- `new ApiError(message, status, payload)`: the flag computations of the
constructor body.  `undefined >= 500` is false in JavaScript, hence
`isServerError` is false at `none`. -/
def ApiError.make (message : String) (status : Option Int) (payload : Option JsVal) : ApiError :=
  { message := message
    status := status
    payload := payload
    isNetworkError := status == some 0 || status == none
    isRateLimited := status == some 429
    isAuthError := status == some 401 || status == some 403
    isNotFound := status == some 404
    isServerError := match status with | some n => decide (500 ≤ n) | none => false }

/-- `getErrorMessage` (api.js lines 112-125): the static per-status
default message table, with the template fallback. -/
def getErrorMessage (status : Int) : String :=
  if status = 400 then "Invalid request. Please check your input."
  else if status = 401 then "Please log in to continue."
  else if status = 403 then "You don\x27t have permission to do this."
  else if status = 404 then "The requested item was not found."
  else if status = 408 then "Request timeout. Please try again."
  else if status = 429 then "Too many requests. Please wait a moment."
  else if status = 500 then "Server error. Please try again later."
  else if status = 502 then "Server is temporarily unavailable."
  else if status = 503 then "Service unavailable. Please try again later."
  else "Request failed (" ++ toString status ++ ")"

/-- One raw transport response, before body parsing: `res.ok`,
`res.status`, the body text that `res.text()` yields, and the
`Retry-After` header (`none` when `res.headers.get` returns `null`). -/
structure FetchResponse : Type where
  ok : Bool
  status : Int
  bodyText : String
  retryAfterHeader : Option String
deriving Repr

/-- The outcome of one `fetch` attempt: a response, a transport-level
rejection (`TypeError`, carrying no `.status`), or an abort fired by the
30-second timeout (`AbortError`). -/
inductive FetchOutcome : Type where
  | success : FetchResponse → FetchOutcome
  | netFail : FetchOutcome
  | timeout : FetchOutcome
deriving Repr

/-- The body-parsing step of `parseResponseOnce` (api.js lines 30-36):
empty text gives `null`; otherwise the `JSON.parse` result, or the raw
text when parsing throws. -/
def parseData (jsonParse : String → Option JsVal) (text : String) : JsVal :=
  if text = "" then .null
  else
    match jsonParse text with
    | some j => j
    | none => .str text

/-- The record `{ ok, status, data }` returned by `parseResponseOnce`. -/
structure ParsedResponse : Type where
  ok : Bool
  status : Int
  data : JsVal

/-- `parseResponseOnce` (api.js lines 29-38). -/
def parseResponseOnce (jsonParse : String → Option JsVal) (res : FetchResponse) : ParsedResponse :=
  { ok := res.ok, status := res.status, data := parseData jsonParse res.bodyText }

/-- The chain `data.message || data.error || data.detail` (api.js lines
58-59 and 80-81). -/
def msgChain (data : JsVal) : JsVal :=
  jsOr (jsOr (getProp data "message") (getProp data "error")) (getProp data "detail")

/-- The `msg` computed in the 401 branch (api.js lines 58-60):
`data && chain ? chain : 'Session expired. Please login again.'`. -/
def msg401 (data : JsVal) : JsVal :=
  if truthy data && truthy (msgChain data) then msgChain data
  else .str "Session expired. Please login again."

/-- The `msg` computed for other non-success statuses (api.js lines
80-82): `data && chain ? chain : getErrorMessage(status)`. -/
def msgOther (data : JsVal) (status : Int) : JsVal :=
  if truthy data && truthy (msgChain data) then msgChain data
  else .str (getErrorMessage status)

/-- `localStorage.removeItem` applied to the four credential keys
(api.js lines 64-67). -/
def clearCreds (s : Store) : Store :=
  removeItem (removeItem (removeItem (removeItem s "adminToken") "adminData") "memberToken") "memberData"

/-- The delay before a 429 retry (api.js line 75):
`parseInt(res.headers.get('Retry-After')) || RETRY_DELAY * (retries + 1)`
(both `NaN` and `0` are falsy, so they fall back to the default). -/
def retryAfterMs (header : Option String) (retries : Nat) : Int :=
  match header with
  | none => RETRY_DELAY * ((retries : Int) + 1)
  | some h =>
    match parseIntJS h with
    | none => RETRY_DELAY * ((retries : Int) + 1)
    | some n => if n = 0 then RETRY_DELAY * ((retries : Int) + 1) else n

/-- What one call to `request` produces: the resolution (`.ok data` or a
raised `ApiError`), the final credential store, the list of `sleep`
delays performed (in order, milliseconds), and the number of transport
attempts issued. -/
structure ReqOutcome : Type where
  result : Except ApiError JsVal
  store : Store
  sleeps : List Int
  attempts : Nat

/-- `request(url, options, retries)` (api.js lines 41-109), for a fixed
url and options.  `transport` gives the outcome of the `fetch` of each
attempt number.  Branches, in the source's order: an `AbortError` from
the 30-second timeout is rethrown as a 408 `ApiError` with no retry; a
response with `ok` resolves to its parsed data; a 401 builds `msg` and,
when `msg` is a string, clears the four credential keys if the lowercased
message contains "expired" or "token" and throws a 401 `ApiError` — when
`msg` is not a string, `msg.toLowerCase()` raises a `TypeError`, which
the catch block (seeing no `.status` on it) treats as a network failure:
sleep and retry below the ceiling, else a status-0 `ApiError`; a 429
below the retry ceiling sleeps for the `Retry-After`-derived delay and
retries; any other non-ok status throws an `ApiError` built from
`msgOther` with no retry; a transport rejection sleeps
`RETRY_DELAY * (retries + 1)` and retries below the ceiling, else a
status-0 `ApiError`. -/
def request (transport : Nat → FetchOutcome) (jsonParse : String → Option JsVal)
    (retries : Nat) (store : Store) : ReqOutcome :=
  match transport retries with
  | .timeout =>
    { result := .error (ApiError.make "Request timeout. Please check your connection and try again." (some 408) none)
      store := store, sleeps := [], attempts := 1 }
  | .netFail =>
    if _h : retries < MAX_RETRIES then
      let r := request transport jsonParse (retries + 1) store
      { r with sleeps := RETRY_DELAY * ((retries : Int) + 1) :: r.sleeps, attempts := r.attempts + 1 }
    else
      { result := .error (ApiError.make "Unable to connect to server. Please check your internet connection." (some 0) none)
        store := store, sleeps := [], attempts := 1 }
  | .success res =>
    let p := parseResponseOnce jsonParse res
    if p.ok then
      { result := .ok p.data, store := store, sleeps := [], attempts := 1 }
    else if p.status = 401 then
      match msg401 p.data with
      | .str s =>
        let store1 :=
          if strIncludes (toLowerJS s) "expired" || strIncludes (toLowerJS s) "token" then clearCreds store
          else store
        { result := .error (ApiError.make s (some 401) (some p.data))
          store := store1, sleeps := [], attempts := 1 }
      | _ =>
        if _h : retries < MAX_RETRIES then
          let r := request transport jsonParse (retries + 1) store
          { r with sleeps := RETRY_DELAY * ((retries : Int) + 1) :: r.sleeps, attempts := r.attempts + 1 }
        else
          { result := .error (ApiError.make "Unable to connect to server. Please check your internet connection." (some 0) none)
            store := store, sleeps := [], attempts := 1 }
    else if _h : p.status = 429 ∧ retries < MAX_RETRIES then
      let r := request transport jsonParse (retries + 1) store
      { r with sleeps := retryAfterMs res.retryAfterHeader retries :: r.sleeps, attempts := r.attempts + 1 }
    else
      { result := .error (ApiError.make (jsToString (msgOther p.data p.status)) (some p.status) (some p.data))
        store := store, sleeps := [], attempts := 1 }
termination_by MAX_RETRIES - retries
decreasing_by all_goals omega

/-! ### Unfolding lemmas for `request`, one per branch of the source. -/

theorem request_timeout_eq (tr : Nat → FetchOutcome) (jp : String → Option JsVal)
    (r : Nat) (st : Store) (htr : tr r = .timeout) :
    request tr jp r st =
      { result := .error (ApiError.make "Request timeout. Please check your connection and try again." (some 408) none)
        store := st, sleeps := [], attempts := 1 } := by
  rw [request.eq_def, htr]

theorem request_netFail_retry (tr : Nat → FetchOutcome) (jp : String → Option JsVal)
    (r : Nat) (st : Store) (htr : tr r = .netFail) (h : r < MAX_RETRIES) :
    request tr jp r st =
      { result := (request tr jp (r + 1) st).result
        store := (request tr jp (r + 1) st).store
        sleeps := RETRY_DELAY * ((r : Int) + 1) :: (request tr jp (r + 1) st).sleeps
        attempts := (request tr jp (r + 1) st).attempts + 1 } := by
  rw [request.eq_def, htr]
  simp [h]

theorem request_netFail_stop (tr : Nat → FetchOutcome) (jp : String → Option JsVal)
    (r : Nat) (st : Store) (htr : tr r = .netFail) (h : ¬ r < MAX_RETRIES) :
    request tr jp r st =
      { result := .error (ApiError.make "Unable to connect to server. Please check your internet connection." (some 0) none)
        store := st, sleeps := [], attempts := 1 } := by
  rw [request.eq_def, htr]
  simp [h]

theorem request_ok_eq (tr : Nat → FetchOutcome) (jp : String → Option JsVal)
    (r : Nat) (st : Store) (res : FetchResponse)
    (htr : tr r = .success res) (hok : res.ok = true) :
    request tr jp r st =
      { result := .ok (parseData jp res.bodyText), store := st, sleeps := [], attempts := 1 } := by
  rw [request.eq_def, htr]
  simp [parseResponseOnce, hok]

theorem request_401_str_eq (tr : Nat → FetchOutcome) (jp : String → Option JsVal)
    (r : Nat) (st : Store) (res : FetchResponse) (s : String)
    (htr : tr r = .success res) (hok : res.ok = false) (hst : res.status = 401)
    (hm : msg401 (parseData jp res.bodyText) = .str s) :
    request tr jp r st =
      { result := .error (ApiError.make s (some 401) (some (parseData jp res.bodyText)))
        store := if strIncludes (toLowerJS s) "expired" || strIncludes (toLowerJS s) "token" then clearCreds st else st
        sleeps := [], attempts := 1 } := by
  rw [request.eq_def, htr]
  simp [parseResponseOnce, hok, hst, hm]

theorem request_401_nonstr_retry (tr : Nat → FetchOutcome) (jp : String → Option JsVal)
    (r : Nat) (st : Store) (res : FetchResponse)
    (htr : tr r = .success res) (hok : res.ok = false) (hst : res.status = 401)
    (hm : (msg401 (parseData jp res.bodyText)).isStr = false) (h : r < MAX_RETRIES) :
    request tr jp r st =
      { result := (request tr jp (r + 1) st).result
        store := (request tr jp (r + 1) st).store
        sleeps := RETRY_DELAY * ((r : Int) + 1) :: (request tr jp (r + 1) st).sleeps
        attempts := (request tr jp (r + 1) st).attempts + 1 } := by
  rw [request.eq_def, htr]
  rcases hmv : msg401 (parseData jp res.bodyText) with _ | _ | b | n | s | xs | fs <;>
    rw [hmv] at hm <;> simp [JsVal.isStr] at hm <;>
    simp [parseResponseOnce, hok, hst, hmv, h]

theorem request_401_nonstr_stop (tr : Nat → FetchOutcome) (jp : String → Option JsVal)
    (r : Nat) (st : Store) (res : FetchResponse)
    (htr : tr r = .success res) (hok : res.ok = false) (hst : res.status = 401)
    (hm : (msg401 (parseData jp res.bodyText)).isStr = false) (h : ¬ r < MAX_RETRIES) :
    request tr jp r st =
      { result := .error (ApiError.make "Unable to connect to server. Please check your internet connection." (some 0) none)
        store := st, sleeps := [], attempts := 1 } := by
  rw [request.eq_def, htr]
  rcases hmv : msg401 (parseData jp res.bodyText) with _ | _ | b | n | s | xs | fs <;>
    rw [hmv] at hm <;> simp [JsVal.isStr] at hm <;>
    simp [parseResponseOnce, hok, hst, hmv, h]

theorem request_429_retry (tr : Nat → FetchOutcome) (jp : String → Option JsVal)
    (r : Nat) (st : Store) (res : FetchResponse)
    (htr : tr r = .success res) (hok : res.ok = false) (hst : res.status = 429)
    (h : r < MAX_RETRIES) :
    request tr jp r st =
      { result := (request tr jp (r + 1) st).result
        store := (request tr jp (r + 1) st).store
        sleeps := retryAfterMs res.retryAfterHeader r :: (request tr jp (r + 1) st).sleeps
        attempts := (request tr jp (r + 1) st).attempts + 1 } := by
  rw [request.eq_def, htr]
  simp [parseResponseOnce, hok, hst, h]

theorem request_other_eq (tr : Nat → FetchOutcome) (jp : String → Option JsVal)
    (r : Nat) (st : Store) (res : FetchResponse)
    (htr : tr r = .success res) (hok : res.ok = false) (h401 : res.status ≠ 401)
    (hn : ¬ (res.status = 429 ∧ r < MAX_RETRIES)) :
    request tr jp r st =
      { result := .error (ApiError.make (jsToString (msgOther (parseData jp res.bodyText) res.status))
          (some res.status) (some (parseData jp res.bodyText)))
        store := st, sleeps := [], attempts := 1 } := by
  rw [request.eq_def, htr]
  simp [parseResponseOnce, hok, h401, hn]

/-! ### Lemmas about the credential store. -/

theorem getItem_cons (p : String × String) (t : Store) (k : String) :
    getItem (p :: t) k = if p.fst == k then some p.snd else getItem t k := by
  simp only [getItem, List.find?_cons]
  cases h : p.fst == k <;> simp [h]

theorem removeItem_cons (p : String × String) (t : Store) (k : String) :
    removeItem (p :: t) k = if p.fst != k then p :: removeItem t k else removeItem t k := by
  simp only [removeItem, List.filter_cons]

theorem getItem_removeItem_self (s : Store) (k : String) : getItem (removeItem s k) k = none := by
  induction s with
  | nil => rfl
  | cons p t ih =>
    rw [removeItem_cons]
    by_cases h : p.fst = k
    · rw [if_neg (by simp [h])]
      exact ih
    · rw [if_pos (by simp [h]), getItem_cons, if_neg (by simp [h])]
      exact ih

theorem getItem_removeItem_of_ne (s : Store) (k k2 : String) (h : k ≠ k2) :
    getItem (removeItem s k2) k = getItem s k := by
  induction s with
  | nil => rfl
  | cons p t ih =>
    rw [removeItem_cons]
    by_cases hp : p.fst = k2
    · rw [if_neg (by simp [hp])]
      rw [getItem_cons, if_neg (by simp [hp]; exact fun e => h e.symm)]
      exact ih
    · rw [if_pos (by simp [hp]), getItem_cons, getItem_cons]
      by_cases hk : p.fst = k
      · rw [if_pos (by simp [hk]), if_pos (by simp [hk])]
      · rw [if_neg (by simp [hk]), if_neg (by simp [hk])]
        exact ih

theorem getItem_clearCreds (st : Store) :
    getItem (clearCreds st) "adminToken" = none ∧ getItem (clearCreds st) "adminData" = none ∧
    getItem (clearCreds st) "memberToken" = none ∧ getItem (clearCreds st) "memberData" = none := by
  unfold clearCreds
  refine ⟨?_, ?_, ?_, ?_⟩
  · rw [getItem_removeItem_of_ne _ _ _ (by decide), getItem_removeItem_of_ne _ _ _ (by decide),
      getItem_removeItem_of_ne _ _ _ (by decide)]
    exact getItem_removeItem_self _ _
  · rw [getItem_removeItem_of_ne _ _ _ (by decide), getItem_removeItem_of_ne _ _ _ (by decide)]
    exact getItem_removeItem_self _ _
  · rw [getItem_removeItem_of_ne _ _ _ (by decide)]
    exact getItem_removeItem_self _ _
  · exact getItem_removeItem_self _ _

/-! ### Attempt-count bound machinery. -/

theorem request_attempts_of_ceiling (tr : Nat → FetchOutcome) (jp : String → Option JsVal)
    (r : Nat) (st : Store) (hr : ¬ r < MAX_RETRIES) :
    (request tr jp r st).attempts = 1 := by
  cases htr : tr r with
  | timeout => rw [request_timeout_eq tr jp r st htr]
  | netFail => rw [request_netFail_stop tr jp r st htr hr]
  | success res =>
    by_cases hok : res.ok = true
    · rw [request_ok_eq tr jp r st res htr hok]
    · have hokf : res.ok = false := by simpa using hok
      by_cases hst : res.status = 401
      · rcases hmv : msg401 (parseData jp res.bodyText) with _ | _ | b | n' | s | xs | fs
        all_goals first
          | exact by rw [request_401_str_eq tr jp r st res _ htr hokf hst hmv]
          | exact by rw [request_401_nonstr_stop tr jp r st res htr hokf hst (by rw [hmv]; rfl) hr]
      · have hn : ¬ (res.status = 429 ∧ r < MAX_RETRIES) := fun hc => hr hc.2
        rw [request_other_eq tr jp r st res htr hokf hst hn]

theorem request_attempts_le_aux (tr : Nat → FetchOutcome) (jp : String → Option JsVal) :
    ∀ (n r : Nat), MAX_RETRIES - r ≤ n → ∀ st : Store,
      (request tr jp r st).attempts ≤ n + 1 := by
  intro n
  induction n with
  | zero =>
    intro r hle st
    have hr : ¬ r < MAX_RETRIES := by omega
    rw [request_attempts_of_ceiling tr jp r st hr]
  | succ n ih =>
    intro r hle st
    by_cases hr : r < MAX_RETRIES
    · cases htr : tr r with
      | timeout =>
        rw [request_timeout_eq tr jp r st htr]
        show 1 ≤ n + 1 + 1
        omega
      | netFail =>
        rw [request_netFail_retry tr jp r st htr hr]
        show (request tr jp (r + 1) st).attempts + 1 ≤ n + 1 + 1
        have := ih (r + 1) (by omega) st
        omega
      | success res =>
        by_cases hok : res.ok = true
        · rw [request_ok_eq tr jp r st res htr hok]
          show 1 ≤ n + 1 + 1
          omega
        · have hokf : res.ok = false := by simpa using hok
          by_cases hst : res.status = 401
          · rcases hmv : msg401 (parseData jp res.bodyText) with _ | _ | b | n' | s | xs | fs
            all_goals first
              | (rw [request_401_str_eq tr jp r st res _ htr hokf hst hmv]
                 show 1 ≤ n + 1 + 1
                 omega)
              | (rw [request_401_nonstr_retry tr jp r st res htr hokf hst (by rw [hmv]; rfl) hr]
                 show (request tr jp (r + 1) st).attempts + 1 ≤ n + 1 + 1
                 have := ih (r + 1) (by omega) st
                 omega)
          · by_cases h429 : res.status = 429
            · rw [request_429_retry tr jp r st res htr hokf h429 hr]
              show (request tr jp (r + 1) st).attempts + 1 ≤ n + 1 + 1
              have := ih (r + 1) (by omega) st
              omega
            · have hn : ¬ (res.status = 429 ∧ r < MAX_RETRIES) := fun hc => h429 hc.1
              rw [request_other_eq tr jp r st res htr hokf hst hn]
              show 1 ≤ n + 1 + 1
              omega
    · rw [request_attempts_of_ceiling tr jp r st hr]
      omega

/-! ### The claims. -/

/-- C1: for every response with status 401 whose body message (the body's
message, error, or detail field, defaulting to "Session expired. Please
login again.") contains the substring "expired" or "token"
case-insensitively, after `request` resolves all four credential-storage
entries (adminToken, adminData, memberToken, memberData) are absent,
regardless of their prior contents, and the call surfaces a Classified
Error with status 401. -/
theorem c1_expired_401_clears_all_credentials (tr : Nat → FetchOutcome)
    (jp : String → Option JsVal) (r : Nat) (st : Store) (res : FetchResponse) (s : String)
    (htr : tr r = .success res) (hok : res.ok = false) (hst : res.status = 401)
    (hm : msg401 (parseData jp res.bodyText) = .str s)
    (hinc : strIncludes (toLowerJS s) "expired" = true ∨ strIncludes (toLowerJS s) "token" = true) :
    getItem (request tr jp r st).store "adminToken" = none ∧
    getItem (request tr jp r st).store "adminData" = none ∧
    getItem (request tr jp r st).store "memberToken" = none ∧
    getItem (request tr jp r st).store "memberData" = none ∧
    ∃ e, (request tr jp r st).result = .error e ∧ e.status = some 401 ∧
      e.isAuthError = true ∧ e.message = s := by
  rw [request_401_str_eq tr jp r st res s htr hok hst hm]
  have hcond : (strIncludes (toLowerJS s) "expired" || strIncludes (toLowerJS s) "token") = true := by
    rcases hinc with h | h <;> simp [h]
  simp only [hcond, if_true, if_pos]
  obtain ⟨h1, h2, h3, h4⟩ := getItem_clearCreds st
  exact ⟨h1, h2, h3, h4, _, rfl, rfl, by simp [ApiError.make], rfl⟩

theorem c1_witness :
    getItem (request (fun _ => FetchOutcome.success ⟨false, 401, "", none⟩) (fun _ => none) 0
      [("adminToken", "t1"), ("adminData", "d1"), ("memberToken", "t2"), ("memberData", "d2")]).store
      "adminToken" = none ∧
    getItem (request (fun _ => FetchOutcome.success ⟨false, 401, "", none⟩) (fun _ => none) 0
      [("adminToken", "t1"), ("adminData", "d1"), ("memberToken", "t2"), ("memberData", "d2")]).store
      "adminData" = none ∧
    getItem (request (fun _ => FetchOutcome.success ⟨false, 401, "", none⟩) (fun _ => none) 0
      [("adminToken", "t1"), ("adminData", "d1"), ("memberToken", "t2"), ("memberData", "d2")]).store
      "memberToken" = none ∧
    getItem (request (fun _ => FetchOutcome.success ⟨false, 401, "", none⟩) (fun _ => none) 0
      [("adminToken", "t1"), ("adminData", "d1"), ("memberToken", "t2"), ("memberData", "d2")]).store
      "memberData" = none ∧
    ∃ e, (request (fun _ => FetchOutcome.success ⟨false, 401, "", none⟩) (fun _ => none) 0
      [("adminToken", "t1"), ("adminData", "d1"), ("memberToken", "t2"), ("memberData", "d2")]).result =
        .error e ∧ e.status = some 401 ∧ e.isAuthError = true ∧
      e.message = "Session expired. Please login again." :=
  c1_expired_401_clears_all_credentials (fun _ => FetchOutcome.success ⟨false, 401, "", none⟩)
    (fun _ => none) 0
    [("adminToken", "t1"), ("adminData", "d1"), ("memberToken", "t2"), ("memberData", "d2")]
    ⟨false, 401, "", none⟩ "Session expired. Please login again." rfl rfl rfl rfl
    (Or.inl (by decide))

/-- C2: for every response with status 401 whose body message does not
contain "expired" or "token" (case-insensitive), `request` surfaces a
Classified Error and the four credential-storage entries are left exactly
as they were before the call. -/
theorem c2_non_expired_401_preserves_store (tr : Nat → FetchOutcome)
    (jp : String → Option JsVal) (r : Nat) (st : Store) (res : FetchResponse) (s : String)
    (htr : tr r = .success res) (hok : res.ok = false) (hst : res.status = 401)
    (hm : msg401 (parseData jp res.bodyText) = .str s)
    (hninc : strIncludes (toLowerJS s) "expired" = false ∧ strIncludes (toLowerJS s) "token" = false) :
    (request tr jp r st).store = st ∧
    ∃ e, (request tr jp r st).result = .error e ∧ e.status = some 401 ∧
      e.isAuthError = true ∧ e.message = s := by
  rw [request_401_str_eq tr jp r st res s htr hok hst hm]
  simp only [hninc.1, hninc.2, Bool.or_false, if_false]
  exact ⟨rfl, _, rfl, rfl, by simp [ApiError.make], rfl⟩

theorem c2_witness :
    (request (fun _ => FetchOutcome.success ⟨false, 401, "x", none⟩)
      (fun _ => some (JsVal.obj [("message", JsVal.str "Invalid credentials")])) 0
      [("adminToken", "t1")]).store = [("adminToken", "t1")] ∧
    ∃ e, (request (fun _ => FetchOutcome.success ⟨false, 401, "x", none⟩)
      (fun _ => some (JsVal.obj [("message", JsVal.str "Invalid credentials")])) 0
      [("adminToken", "t1")]).result = .error e ∧ e.status = some 401 ∧
      e.isAuthError = true ∧ e.message = "Invalid credentials" :=
  c2_non_expired_401_preserves_store
    (fun _ => FetchOutcome.success ⟨false, 401, "x", none⟩)
    (fun _ => some (JsVal.obj [("message", JsVal.str "Invalid credentials")])) 0
    [("adminToken", "t1")] ⟨false, 401, "x", none⟩ "Invalid credentials" rfl rfl rfl rfl
    ⟨by decide, by decide⟩

/-- C5: if the transport produces no response within the 30 000 ms bound
(the abort fires), the call resolves to a Classified Error with status
408 and the literal timeout message, with no retry attempt afterward (one
single transport attempt, no sleeps, store untouched). -/
theorem c5_timeout_408_no_retry (tr : Nat → FetchOutcome) (jp : String → Option JsVal)
    (r : Nat) (st : Store) (htr : tr r = .timeout) :
    (request tr jp r st).result =
      .error (ApiError.make "Request timeout. Please check your connection and try again." (some 408) none) ∧
    (request tr jp r st).attempts = 1 ∧
    (request tr jp r st).sleeps = [] ∧
    (request tr jp r st).store = st ∧
    (ApiError.make "Request timeout. Please check your connection and try again." (some 408) none).status =
      some 408 := by
  rw [request_timeout_eq tr jp r st htr]
  exact ⟨rfl, rfl, rfl, rfl, rfl⟩

theorem c5_witness :
    (request (fun _ => FetchOutcome.timeout) (fun _ => none) 0 []).result =
      .error (ApiError.make "Request timeout. Please check your connection and try again." (some 408) none) ∧
    (request (fun _ => FetchOutcome.timeout) (fun _ => none) 0 []).attempts = 1 ∧
    (request (fun _ => FetchOutcome.timeout) (fun _ => none) 0 []).sleeps = [] ∧
    (request (fun _ => FetchOutcome.timeout) (fun _ => none) 0 []).store = [] ∧
    (ApiError.make "Request timeout. Please check your connection and try again." (some 408) none).status =
      some 408 :=
  c5_timeout_408_no_retry (fun _ => FetchOutcome.timeout) (fun _ => none) 0 [] rfl

/-- C7: for every Classified Error constructed with any message, numeric
status, and payload, the derived boolean flags are a pure function of the
status code: isAuthError iff 401 or 403, isRateLimited iff 429,
isNotFound iff 404, isServerError iff status ≥ 500, isNetworkError iff
status is 0. -/
theorem c7_flags_determined_by_status (m : String) (n : Int) (p : Option JsVal) :
    ((ApiError.make m (some n) p).isAuthError = true ↔ (n = 401 ∨ n = 403)) ∧
    ((ApiError.make m (some n) p).isRateLimited = true ↔ n = 429) ∧
    ((ApiError.make m (some n) p).isNotFound = true ↔ n = 404) ∧
    ((ApiError.make m (some n) p).isServerError = true ↔ 500 ≤ n) ∧
    ((ApiError.make m (some n) p).isNetworkError = true ↔ n = 0) := by
  simp [ApiError.make]

/-- C3: for a server that answers status 429 on every attempt, `request`
retries 3 times (4 total attempts) before surfacing the Classified Error,
and each retry occurs after a delay equal to the server-supplied
Retry-After hint when it parses to a nonzero integer, else
1000 * attempt-number milliseconds. -/
theorem c3_rate_limit_retries_three_times (jp : String → Option JsVal) (st : Store)
    (res : FetchResponse) (hok : res.ok = false) (hst : res.status = 429) :
    (request (fun _ => FetchOutcome.success res) jp 0 st).attempts = 4 ∧
    (request (fun _ => FetchOutcome.success res) jp 0 st).sleeps =
      [retryAfterMs res.retryAfterHeader 0, retryAfterMs res.retryAfterHeader 1,
       retryAfterMs res.retryAfterHeader 2] ∧
    (res.retryAfterHeader = none →
      (request (fun _ => FetchOutcome.success res) jp 0 st).sleeps = [1000, 2000, 3000]) ∧
    (∀ h n, res.retryAfterHeader = some h → parseIntJS h = some n → n ≠ 0 →
      (request (fun _ => FetchOutcome.success res) jp 0 st).sleeps = [n, n, n]) ∧
    (∃ e, (request (fun _ => FetchOutcome.success res) jp 0 st).result = .error e ∧
      e.status = some 429 ∧ e.isRateLimited = true) ∧
    (request (fun _ => FetchOutcome.success res) jp 0 st).store = st := by
  have e0 := request_429_retry (fun _ => FetchOutcome.success res) jp 0 st res rfl hok hst (by decide)
  have e1 := request_429_retry (fun _ => FetchOutcome.success res) jp 1 st res rfl hok hst (by decide)
  have e2 := request_429_retry (fun _ => FetchOutcome.success res) jp 2 st res rfl hok hst (by decide)
  have h401 : res.status ≠ 401 := by rw [hst]; decide
  have hn : ¬ (res.status = 429 ∧ 3 < MAX_RETRIES) := fun hc => absurd hc.2 (by decide)
  have e3 := request_other_eq (fun _ => FetchOutcome.success res) jp 3 st res rfl hok h401 hn
  rw [e0, e1, e2, e3]
  refine ⟨rfl, rfl, ?_, ?_, ⟨_, rfl, by simp [ApiError.make, hst], by simp [ApiError.make, hst]⟩, rfl⟩
  · intro hh
    show retryAfterMs res.retryAfterHeader 0 :: retryAfterMs res.retryAfterHeader 1 ::
      retryAfterMs res.retryAfterHeader 2 :: [] = [1000, 2000, 3000]
    rw [hh]
    norm_num [retryAfterMs, RETRY_DELAY]
  · intro h n hh hp hn0
    show retryAfterMs res.retryAfterHeader 0 :: retryAfterMs res.retryAfterHeader 1 ::
      retryAfterMs res.retryAfterHeader 2 :: [] = [n, n, n]
    rw [hh]
    simp [retryAfterMs, hp, hn0]

theorem c3_witness :
    (request (fun _ => FetchOutcome.success ⟨false, 429, "", some "7"⟩) (fun _ => none) 0 []).attempts = 4 ∧
    (request (fun _ => FetchOutcome.success ⟨false, 429, "", some "7"⟩) (fun _ => none) 0 []).sleeps =
      [7, 7, 7] := by
  have h := c3_rate_limit_retries_three_times (fun _ => none) [] ⟨false, 429, "", some "7"⟩ rfl rfl
  exact ⟨h.1, h.2.2.2.1 "7" 7 rfl (by decide) (by decide)⟩

/-- C4: for a transport-level failure (no response at all) on every
attempt, `request` retries 3 times with linearly increasing backoff
1000 * attempt-number milliseconds, then resolves to a Classified Error
with status 0, the literal connection-failure message, and
isNetworkError true. -/
theorem c4_transport_failure_retries_then_status0 (jp : String → Option JsVal) (st : Store) :
    (request (fun _ => FetchOutcome.netFail) jp 0 st).result =
      .error (ApiError.make "Unable to connect to server. Please check your internet connection." (some 0) none) ∧
    (request (fun _ => FetchOutcome.netFail) jp 0 st).attempts = 4 ∧
    (request (fun _ => FetchOutcome.netFail) jp 0 st).sleeps = [1000, 2000, 3000] ∧
    (request (fun _ => FetchOutcome.netFail) jp 0 st).store = st ∧
    (ApiError.make "Unable to connect to server. Please check your internet connection." (some 0) none).isNetworkError = true ∧
    (ApiError.make "Unable to connect to server. Please check your internet connection." (some 0) none).status = some 0 := by
  have h0 := request_netFail_retry (fun _ => FetchOutcome.netFail) jp 0 st rfl (by decide)
  have h1 := request_netFail_retry (fun _ => FetchOutcome.netFail) jp 1 st rfl (by decide)
  have h2 := request_netFail_retry (fun _ => FetchOutcome.netFail) jp 2 st rfl (by decide)
  have h3 := request_netFail_stop (fun _ => FetchOutcome.netFail) jp 3 st rfl (by decide)
  rw [h0, h1, h2, h3]
  refine ⟨rfl, rfl, ?_, rfl, by simp [ApiError.make], rfl⟩
  show RETRY_DELAY * ((0 : Nat) + 1 : Int) :: RETRY_DELAY * ((1 : Nat) + 1 : Int) ::
    RETRY_DELAY * ((2 : Nat) + 1 : Int) :: [] = [1000, 2000, 3000]
  norm_num [RETRY_DELAY]

/-- C6: for every response whose transport-level status indicates success
(res.ok), `request` resolves to the parsed JSON body, or to the raw body
text when the body is not valid JSON (and to null for an empty body),
with no envelope unwrapping and no secondary parse failure; one attempt,
store untouched. -/
theorem c6_success_resolves_parsed_body (tr : Nat → FetchOutcome) (jp : String → Option JsVal)
    (r : Nat) (st : Store) (res : FetchResponse)
    (htr : tr r = .success res) (hok : res.ok = true) :
    (request tr jp r st).result = .ok (parseData jp res.bodyText) ∧
    (∀ v, res.bodyText ≠ "" → jp res.bodyText = some v → parseData jp res.bodyText = v) ∧
    (res.bodyText ≠ "" → jp res.bodyText = none → parseData jp res.bodyText = .str res.bodyText) ∧
    (request tr jp r st).store = st ∧ (request tr jp r st).attempts = 1 := by
  rw [request_ok_eq tr jp r st res htr hok]
  refine ⟨rfl, ?_, ?_, rfl, rfl⟩
  · intro v hne hv
    simp [parseData, hne, hv]
  · intro hne hn
    simp [parseData, hne, hn]

theorem c6_witness :
    (request (fun _ => FetchOutcome.success
        ⟨true, 200, "\x7b\"members\":[\x7b\"id\":1,\"name\":\"A\"\x7d],\"total\":1\x7d", none⟩)
      (fun _ => some (JsVal.obj [("members", JsVal.arr [JsVal.obj [("id", JsVal.num 1),
        ("name", JsVal.str "A")]]), ("total", JsVal.num 1)])) 0 []).result =
      .ok (JsVal.obj [("members", JsVal.arr [JsVal.obj [("id", JsVal.num 1),
        ("name", JsVal.str "A")]]), ("total", JsVal.num 1)]) := by
  have h := c6_success_resolves_parsed_body
    (fun _ => FetchOutcome.success
      ⟨true, 200, "\x7b\"members\":[\x7b\"id\":1,\"name\":\"A\"\x7d],\"total\":1\x7d", none⟩)
    (fun _ => some (JsVal.obj [("members", JsVal.arr [JsVal.obj [("id", JsVal.num 1),
      ("name", JsVal.str "A")]]), ("total", JsVal.num 1)])) 0 []
    ⟨true, 200, "\x7b\"members\":[\x7b\"id\":1,\"name\":\"A\"\x7d],\"total\":1\x7d", none⟩ rfl rfl
  rw [h.1]
  have h2 := h.2.1 (JsVal.obj [("members", JsVal.arr [JsVal.obj [("id", JsVal.num 1),
    ("name", JsVal.str "A")]]), ("total", JsVal.num 1)]) (by decide) rfl
  rw [h2]

/-- C8: for every non-success status other than 401 and other than a 429
arriving below the retry ceiling (a 429 at the ceiling is included),
`request` surfaces, without retrying, a Classified Error whose message is
the body's message/error/detail field when that chain yields a nonempty
string, else the static per-status default message table. -/
theorem c8_other_statuses_message_table (tr : Nat → FetchOutcome) (jp : String → Option JsVal)
    (r : Nat) (st : Store) (res : FetchResponse)
    (htr : tr r = .success res) (hok : res.ok = false)
    (h401 : res.status ≠ 401) (h429 : ¬ (res.status = 429 ∧ r < MAX_RETRIES)) :
    (request tr jp r st).result =
      .error (ApiError.make (jsToString (msgOther (parseData jp res.bodyText) res.status))
        (some res.status) (some (parseData jp res.bodyText))) ∧
    (request tr jp r st).attempts = 1 ∧
    (request tr jp r st).sleeps = [] ∧
    (request tr jp r st).store = st ∧
    (∀ m, truthy (parseData jp res.bodyText) = true →
      msgChain (parseData jp res.bodyText) = .str m → m ≠ "" →
      jsToString (msgOther (parseData jp res.bodyText) res.status) = m) ∧
    ((truthy (parseData jp res.bodyText) = false ∨
        truthy (msgChain (parseData jp res.bodyText)) = false) →
      jsToString (msgOther (parseData jp res.bodyText) res.status) = getErrorMessage res.status) := by
  rw [request_other_eq tr jp r st res htr hok h401 h429]
  refine ⟨rfl, rfl, rfl, rfl, ?_, ?_⟩
  · intro m hd hm hne
    have ht : truthy (JsVal.str m) = true := by simp [truthy, hne]
    simp [msgOther, hd, hm, ht, jsToString]
  · intro hcase
    rcases hcase with hd | hc
    · simp [msgOther, hd, jsToString]
    · simp [msgOther, hc, jsToString]

theorem c8_witness :
    (request (fun _ => FetchOutcome.success ⟨false, 500, "x", none⟩)
      (fun _ => some (JsVal.obj [("detail", JsVal.str "db down")])) 0 []).result =
      .error (ApiError.make "db down" (some 500) (some (JsVal.obj [("detail", JsVal.str "db down")]))) ∧
    (ApiError.make "db down" (some 500) (some (JsVal.obj [("detail", JsVal.str "db down")]))).isServerError =
      true := by
  have h := c8_other_statuses_message_table
    (fun _ => FetchOutcome.success ⟨false, 500, "x", none⟩)
    (fun _ => some (JsVal.obj [("detail", JsVal.str "db down")])) 0 []
    ⟨false, 500, "x", none⟩ rfl rfl (by decide) (by decide)
  refine ⟨?_, by simp [ApiError.make]⟩
  rw [h.1]
  rfl

/-- C9: for a response with status 401 whose parsed body's
message/error/detail chain yields a truthy non-string value, the
TypeError raised by `msg.toLowerCase()` is caught as if it were a
transport failure: no 401 Classified Error is surfaced, credential
storage is untouched, the request is retried up to the ceiling, and the
call resolves to a Classified Error with status 0 and the
connection-failure message. -/
theorem c9_nonstring_401_message_retried_as_network (jp : String → Option JsVal) (st : Store)
    (res : FetchResponse) (hok : res.ok = false) (hst : res.status = 401)
    (hm : (msg401 (parseData jp res.bodyText)).isStr = false) :
    (request (fun _ => FetchOutcome.success res) jp 0 st).result =
      .error (ApiError.make "Unable to connect to server. Please check your internet connection." (some 0) none) ∧
    (request (fun _ => FetchOutcome.success res) jp 0 st).store = st ∧
    (request (fun _ => FetchOutcome.success res) jp 0 st).attempts = 4 ∧
    (request (fun _ => FetchOutcome.success res) jp 0 st).sleeps = [1000, 2000, 3000] ∧
    (ApiError.make "Unable to connect to server. Please check your internet connection." (some 0) none).status =
      some 0 := by
  have e0 := request_401_nonstr_retry (fun _ => FetchOutcome.success res) jp 0 st res rfl hok hst hm (by decide)
  have e1 := request_401_nonstr_retry (fun _ => FetchOutcome.success res) jp 1 st res rfl hok hst hm (by decide)
  have e2 := request_401_nonstr_retry (fun _ => FetchOutcome.success res) jp 2 st res rfl hok hst hm (by decide)
  have e3 := request_401_nonstr_stop (fun _ => FetchOutcome.success res) jp 3 st res rfl hok hst hm (by decide)
  rw [e0, e1, e2, e3]
  refine ⟨rfl, rfl, rfl, ?_, rfl⟩
  show RETRY_DELAY * ((0 : Nat) + 1 : Int) :: RETRY_DELAY * ((1 : Nat) + 1 : Int) ::
    RETRY_DELAY * ((2 : Nat) + 1 : Int) :: [] = [1000, 2000, 3000]
  norm_num [RETRY_DELAY]

theorem c9_witness :
    (request (fun _ => FetchOutcome.success ⟨false, 401, "x", none⟩)
      (fun _ => some (JsVal.obj [("message", JsVal.num 123)])) 0 [("adminToken", "t1")]).result =
      .error (ApiError.make "Unable to connect to server. Please check your internet connection." (some 0) none) ∧
    (request (fun _ => FetchOutcome.success ⟨false, 401, "x", none⟩)
      (fun _ => some (JsVal.obj [("message", JsVal.num 123)])) 0 [("adminToken", "t1")]).store =
      [("adminToken", "t1")] ∧
    (request (fun _ => FetchOutcome.success ⟨false, 401, "x", none⟩)
      (fun _ => some (JsVal.obj [("message", JsVal.num 123)])) 0 [("adminToken", "t1")]).attempts = 4 := by
  have h := c9_nonstring_401_message_retried_as_network
    (fun _ => some (JsVal.obj [("message", JsVal.num 123)])) [("adminToken", "t1")]
    ⟨false, 401, "x", none⟩ rfl rfl (by decide)
  exact ⟨h.1, h.2.1, h.2.2.1⟩

/-- C10: for every request descriptor and every behavior of the transport
(any interleaving of responses, 429s and transport failures across
attempts), `request` terminates (it is a total function) and issues at
most 4 transport attempts in total. -/
theorem c10_at_most_four_attempts (tr : Nat → FetchOutcome) (jp : String → Option JsVal)
    (st : Store) :
    (request tr jp 0 st).attempts ≤ 4 :=
  request_attempts_le_aux tr jp 3 0 (by decide) st
